import Mathlib

/-!
Verification of the numerologist-ai backend core against its specification.

The definitions below are a shallow embedding of the Python sources:

* `src/backend/src/services/numerology_service.py` — the pure numerology engine
  (`_reduce_to_single_digit`, `calculate_life_path`, `calculate_expression_number`,
  `calculate_soul_urge_number`, `calculate_birthday_number`).
* `src/backend/src/voice_pipeline/function_handlers.py` — the function-dispatch
  subsystem (`handle_numerology_function` and the four tool handlers).  Python
  exceptions are modelled explicitly with `Except PyExc`; the database session
  used by `handle_get_interpretation` is an external effect and is passed in as
  an explicit outcome value.
* `src/backend/src/voice_pipeline/system_prompts.py` — `format_conversation_history`
  and the character-estimate branch of `count_tokens` (the tiktoken branch calls an
  external library, so the token counter is passed in as an explicit function).
* `src/backend/src/services/daily_service.py` — `delete_room`, with the HTTP
  round trip passed in as an explicit outcome value.
* `src/backend/src/services/conversation_service.py` — `get_recent_conversations`
  and `get_conversation_context_cached`, with the Redis and database effects
  passed in as explicit outcome values.
-/

/-! ## Numerology engine (`numerology_service.py`) -/

/-- Set of master numbers that should never be reduced further
(`MASTER_NUMBERS = {11, 22, 33}` in `numerology_service.py`). -/
def MASTER_NUMBERS : List Nat := [11, 22, 33]

/-- Decimal digit sum: `sum(int(digit) for digit in str(number))` from
`numerology_service.py` (used in `_reduce_to_single_digit`,
`calculate_life_path` and `calculate_personal_year`). -/
def digitSum (n : Nat) : Nat :=
  if n = 0 then 0 else n % 10 + digitSum (n / 10)
termination_by n
decreasing_by omega

/-- Embedding of `_reduce_to_single_digit`: repeatedly sum decimal digits while
the value is greater than 9 and not a master number. -/
def reduce_to_single_digit (number : Nat) : Nat :=
  if 9 < number ∧ number ∉ MASTER_NUMBERS then
    reduce_to_single_digit (digitSum number)
  else number
termination_by number
decreasing_by
  rename_i h
  have hle : ∀ m : Nat, digitSum m ≤ m := by
    intro m
    induction m using Nat.strong_induction_on with
    | _ m ih =>
      rw [digitSum.eq_def]
      split
      · omega
      · have hlt : m / 10 < m := by omega
        have := ih (m / 10) hlt
        omega
  have heq : digitSum number = number % 10 + digitSum (number / 10) := by
    rw [digitSum.eq_def]
    split
    · omega
    · rfl
  have := hle (number / 10)
  omega

/-- Model of a Python `date` value (`datetime.date`): the engine only reads the
`year`, `month` and `day` attributes, which the embedding passes as the three
components. -/
structure PyDate where
  year : Nat
  month : Nat
  day : Nat
deriving DecidableEq, Repr

/-- Embedding of `calculate_life_path`: reduce month, day and the digit sum of
the year separately, then reduce the sum of the three components.  The date
argument is flattened into its `year`/`month`/`day` attributes. -/
def calculate_life_path (year month day : Nat) : Nat :=
  let month_reduced := reduce_to_single_digit month
  let day_reduced := reduce_to_single_digit day
  let year_sum := digitSum year
  let year_reduced := reduce_to_single_digit year_sum
  reduce_to_single_digit (month_reduced + day_reduced + year_reduced)

/-- Embedding of the `_LETTER_VALUES` table: the Pythagorean letter-to-number
mapping, `None` for a character that is not a key of the dict. -/
def LETTER_VALUES (c : Char) : Option Nat :=
  if c = 'A' ∨ c = 'J' ∨ c = 'S' then some 1
  else if c = 'B' ∨ c = 'K' ∨ c = 'T' then some 2
  else if c = 'C' ∨ c = 'L' ∨ c = 'U' then some 3
  else if c = 'D' ∨ c = 'M' ∨ c = 'V' then some 4
  else if c = 'E' ∨ c = 'N' ∨ c = 'W' then some 5
  else if c = 'F' ∨ c = 'O' ∨ c = 'X' then some 6
  else if c = 'G' ∨ c = 'P' ∨ c = 'Y' then some 7
  else if c = 'H' ∨ c = 'Q' ∨ c = 'Z' then some 8
  else if c = 'I' ∨ c = 'R' then some 9
  else none

/-- Cleaning step shared by the name-based calculations:
`''.join(char.upper() for char in full_name if char.isalpha())`.
The embedding treats `isalpha` as the ASCII letter test; every cleaned
character is then an uppercase ASCII letter and the `_LETTER_VALUES` lookup
always succeeds. -/
def cleanName (full_name : String) : List Char :=
  (full_name.data.filter fun c => c.isAlpha).map Char.toUpper

/-- Embedding of `calculate_expression_number`: sum the letter values of the
cleaned name and reduce. -/
def calculate_expression_number (full_name : String) : Nat :=
  reduce_to_single_digit
    (((cleanName full_name).map fun c => (LETTER_VALUES c).getD 0).sum)

/-- Embedding of the `_VOWELS` set from `numerology_service.py`. -/
def VOWELS : List Char := ['A', 'E', 'I', 'O', 'U']

/-- Embedding of `calculate_soul_urge_number`: keep only the vowels of the
cleaned name, sum their letter values and reduce. -/
def calculate_soul_urge_number (full_name : String) : Nat :=
  reduce_to_single_digit
    ((((cleanName full_name).filter fun c => c ∈ VOWELS).map
      fun c => (LETTER_VALUES c).getD 0).sum)

/-- Embedding of `calculate_birthday_number`: reduce the day of the month
(`birth_date.day`). -/
def calculate_birthday_number (day : Nat) : Nat :=
  reduce_to_single_digit day

/-! ## Python value model for the dispatch subsystem (`function_handlers.py`) -/

/-- Model of the Python values that flow through the GPT tool-call boundary. -/
inductive PyVal where
  | str (s : String)
  | int (n : Int)
  | noneV
  | listV (l : List PyVal)
  | dictV (d : List (String × PyVal))

/-- A Python dict with string keys, as returned by every handler. -/
abbrev PyDict := List (String × PyVal)

/-- Python truthiness (`not x` in the handlers): empty strings, zero, `None`
and empty containers are falsy. -/
def PyVal.isTruthy : PyVal → Bool
  | .str s => s != ""
  | .int n => n != 0
  | .noneV => false
  | .listV l => !l.isEmpty
  | .dictV d => !d.isEmpty

/-- Exceptions that the modelled fragments can raise. -/
inductive PyExc where
  | keyError (k : String)
  | typeError
  | valueError
  | attributeError
deriving DecidableEq, Repr

/-- The `arguments` parameter of `handle_numerology_function`: either a dict or
some non-mapping Python value (on which subscripting raises `TypeError`). -/
inductive PyArgs where
  | dict (entries : List (String × PyVal))
  | nonMapping

/-- Subscript access `arguments[key]`: `TypeError` on a non-mapping,
`KeyError` on a missing key. -/
def getItem : PyArgs → String → Except PyExc PyVal
  | .nonMapping, _ => .error .typeError
  | .dict es, k =>
    match es.lookup k with
    | some v => .ok v
    | none => .error (.keyError k)

/-- The `arguments.get(key)` access used for the optional `category` argument:
`None` when the key is missing, `AttributeError` on a non-mapping. -/
def getOpt : PyArgs → String → Except PyExc PyVal
  | .nonMapping, _ => .error .attributeError
  | .dict es, k => .ok ((es.lookup k).getD .noneV)

/-- Python `str.strip()` restricted to the whitespace characters of the model. -/
def pyStrip (s : String) : String :=
  ⟨((s.data.dropWhile Char.isWhitespace).reverse.dropWhile Char.isWhitespace).reverse⟩

/-- Number of days in a Gregorian month, as validated by `datetime.date`. -/
def daysInMonth (year month : Nat) : Nat :=
  if month = 2 then
    if year % 4 = 0 ∧ (year % 100 ≠ 0 ∨ year % 400 = 0) then 29 else 28
  else if month = 4 ∨ month = 6 ∨ month = 9 ∨ month = 11 then 30
  else 31

/-- Natural number denoted by a string of decimal digits. -/
def natOfDigits (s : String) : Nat :=
  s.data.foldl (fun acc c => 10 * acc + (c.toNat - 48)) 0

/-- Embedding of `datetime.strptime(birth_date, "%Y-%m-%d").date()` from
`handle_calculate_life_path`: three dash-separated decimal fields (year up to
four digits, month and day up to two digits as `strptime` accepts unpadded
values), with Gregorian validity checks; `none` models the `ValueError` raised
on malformed input. -/
def parseDateYMD (s : String) : Option PyDate :=
  match s.splitOn "-" with
  | [ys, ms, ds] =>
    if ys ≠ "" ∧ ys.length ≤ 4 ∧ ys.all Char.isDigit ∧
        ms ≠ "" ∧ ms.length ≤ 2 ∧ ms.all Char.isDigit ∧
        ds ≠ "" ∧ ds.length ≤ 2 ∧ ds.all Char.isDigit then
      let y := natOfDigits ys
      let m := natOfDigits ms
      let d := natOfDigits ds
      if 1 ≤ y ∧ 1 ≤ m ∧ m ≤ 12 ∧ 1 ≤ d ∧ d ≤ daysInMonth y m then
        some ⟨y, m, d⟩
      else none
    else none
  | _ => none

/-- Embedding of `handle_calculate_life_path`. A non-string argument makes
`strptime` raise `TypeError`, which the handler's blanket `except Exception`
turns into a `CalculationError` result. -/
def handle_calculate_life_path (birth_date : PyVal) : PyDict :=
  match birth_date with
  | .str s =>
    match parseDateYMD s with
    | some d => [("life_path_number", .int (calculate_life_path d.year d.month d.day))]
    | none =>
      [("error", .str "InvalidDate"),
       ("message", .str "Invalid date format. Please use YYYY-MM-DD (e.g., 1990-05-15)")]
  | _ =>
    [("error", .str "CalculationError"),
     ("message", .str "Unable to calculate Life Path number. Please try again.")]

/-- Error dict returned by the name-based handlers for an empty name. -/
def invalidNameDict : PyDict :=
  [("error", .str "InvalidName"), ("message", .str "Please provide your full name")]

/-- Embedding of `handle_calculate_expression`. `not full_name` is Python
truthiness; `.strip()` on a non-string raises `AttributeError`, which the
blanket `except Exception` turns into a `CalculationError` result. -/
def handle_calculate_expression (full_name : PyVal) : PyDict :=
  if full_name.isTruthy = false then invalidNameDict
  else
    match full_name with
    | .str s =>
      if pyStrip s = "" then invalidNameDict
      else [("expression_number", .int (calculate_expression_number s))]
    | _ =>
      [("error", .str "CalculationError"),
       ("message", .str "Unable to calculate Expression number. Please try again.")]

/-- Embedding of `handle_calculate_soul_urge`, same validation pattern as
`handle_calculate_expression`. -/
def handle_calculate_soul_urge (full_name : PyVal) : PyDict :=
  if full_name.isTruthy = false then invalidNameDict
  else
    match full_name with
    | .str s =>
      if pyStrip s = "" then invalidNameDict
      else [("soul_urge_number", .int (calculate_soul_urge_number s))]
    | _ =>
      [("error", .str "CalculationError"),
       ("message", .str "Unable to calculate Soul Urge number. Please try again.")]

/-- Outcome of the database session used by `handle_get_interpretation`: the
rows `(category, content)` produced by the SQL query, or any exception raised
while talking to the database. -/
inductive DbOutcome where
  | rows (l : List (String × String))
  | failure
deriving DecidableEq, Repr

/-- Embedding of `handle_get_interpretation`.  The SQL query (filtering by
`number_type`, `number_value` and optionally `category`) runs in the external
database; its result or failure is the explicit `db` outcome.  Any database
exception is caught and turned into a `DatabaseError` result. -/
def handle_get_interpretation (db : DbOutcome)
    (number_type number_value category : PyVal) : PyDict :=
  match db with
  | .failure =>
    [("error", .str "DatabaseError"),
     ("message", .str "Unable to retrieve interpretations. Please try again.")]
  | .rows l =>
    [("interpretations",
      .listV (l.map fun p => .dictV [("category", .str p.1), ("content", .str p.2)]))]

/-- Success-or-raise body of `handle_numerology_function` before its
`try`/`except` wrapper: route on the function name, extracting required
arguments with subscripting (which can raise) and the optional `category`
with `.get`. -/
def handleNumerologyFunctionCore (db : DbOutcome) (function_name : String)
    (arguments : PyArgs) : Except PyExc PyDict :=
  if function_name = "calculate_life_path" then
    (getItem arguments "birth_date").map handle_calculate_life_path
  else if function_name = "calculate_expression_number" then
    (getItem arguments "full_name").map handle_calculate_expression
  else if function_name = "calculate_soul_urge_number" then
    (getItem arguments "full_name").map handle_calculate_soul_urge
  else if function_name = "get_numerology_interpretation" then
    match getItem arguments "number_type" with
    | .error e => .error e
    | .ok number_type =>
      match getItem arguments "number_value" with
      | .error e => .error e
      | .ok number_value =>
        match getOpt arguments "category" with
        | .error e => .error e
        | .ok category =>
          .ok (handle_get_interpretation db number_type number_value category)
  else
    .ok [("error", .str "UnknownFunction"),
         ("message", .str ("Function " ++ function_name ++ " not found"))]

/-- The `except` clauses of `handle_numerology_function`: `KeyError` becomes a
`MissingArgument` result (Python renders `str(KeyError(k))` with quotes around
the key), any other exception becomes a `HandlerError` result. -/
def runHandled (e : Except PyExc PyDict) : PyDict :=
  match e with
  | .ok r => r
  | .error (.keyError k) =>
    [("error", .str "MissingArgument"),
     ("message", .str ("Missing required parameter: \x27" ++ k ++ "\x27"))]
  | .error _ =>
    [("error", .str "HandlerError"),
     ("message", .str "Unable to process function call. Please try again.")]

/-- Embedding of `handle_numerology_function`, the dispatch entry point. -/
def handle_numerology_function (db : DbOutcome) (function_name : String)
    (arguments : PyArgs) : PyDict :=
  runHandled (handleNumerologyFunctionCore db function_name arguments)

/-! ## Conversation-history formatting (`system_prompts.py`) -/

/-- The character-estimate branch of `count_tokens`: `len(text) // 4`, used by
the code when the tiktoken library is unavailable.  The tiktoken branch calls
an external library, so theorems about token budgets quantify over an
arbitrary counter `tok : String → Nat` and this estimator serves as a concrete
instance. -/
def count_tokens_est (text : String) : Nat :=
  text.length / 4

/-- One conversation-summary dict as consumed by
`format_conversation_history`: the keys `date`, `topic`, `insights` and
`numbers`, each possibly absent (`conv["date"]` raises `KeyError` when absent,
the other three are read with `.get`). -/
structure ConvSummary where
  date : Option String
  topic : Option String
  insights : Option String
  numbers : Option String

/-- Month abbreviations produced by `strftime("%b %d")`. -/
def monthAbbrev (m : Nat) : String :=
  match m with
  | 1 => "Jan" | 2 => "Feb" | 3 => "Mar" | 4 => "Apr"
  | 5 => "May" | 6 => "Jun" | 7 => "Jul" | 8 => "Aug"
  | 9 => "Sep" | 10 => "Oct" | 11 => "Nov" | 12 => "Dec"
  | _ => ""

/-- Zero-padded two-digit day, as produced by `strftime("%d")`. -/
def pad2 (d : Nat) : String :=
  if d < 10 then "0" ++ toString d else toString d

/-- Embedding of `datetime.fromisoformat(s.replace("Z", "+00:00"))` as far as
`format_conversation_history` observes it: extract month and day from the
leading `YYYY-MM-DD` prefix with Gregorian validity checks; `none` models the
`ValueError` raised on malformed input.  (Validation of a trailing
time-of-day part is elided; no claim depends on it.) -/
def parseIsoMonthDay (s : String) : Option (Nat × Nat) :=
  match s.data with
  | y1 :: y2 :: y3 :: y4 :: h1 :: m1 :: m2 :: h2 :: d1 :: d2 :: _ =>
    if y1.isDigit ∧ y2.isDigit ∧ y3.isDigit ∧ y4.isDigit ∧ h1 = '-' ∧
        m1.isDigit ∧ m2.isDigit ∧ h2 = '-' ∧ d1.isDigit ∧ d2.isDigit then
      let y := natOfDigits ⟨[y1, y2, y3, y4]⟩
      let m := natOfDigits ⟨[m1, m2]⟩
      let d := natOfDigits ⟨[d1, d2]⟩
      if 1 ≤ m ∧ m ≤ 12 ∧ 1 ≤ d ∧ d ≤ daysInMonth y m then some (m, d) else none
    else none
  | _ => none

/-- One numbered entry of the formatted history, mirroring the entry-building
lines of `_format_conversations`. -/
def formatEntry (i : Nat) (conv : ConvSummary) : String :=
  let date_str :=
    match conv.date with
    | none => "Recent"
    | some ds =>
      match parseIsoMonthDay ds with
      | some (m, d) => monthAbbrev m ++ " " ++ pad2 d
      | none => "Recent"
  let topic := conv.topic.getD "General discussion"
  let insights := (conv.insights.getD "").take 100
  let numbers := conv.numbers.getD ""
  let entry := toString i ++ ". " ++ date_str ++ ": " ++ topic ++ "."
  let entry := if numbers ≠ "" then entry ++ " Discussed numbers: " ++ numbers ++ "." else entry
  if insights ≠ "" then entry ++ " Key insight: " ++ insights else entry

/-- Embedding of the inner `_format_conversations`: header line plus the
numbered entries, joined with newlines. -/
def formatConversations (convs : List ConvSummary) : String :=
  String.intercalate "\n"
    ("Previous conversations with this user:" ::
      convs.enum.map fun p => formatEntry (p.1 + 1) p.2)

/-- The degraded one-line context returned when no prefix of the summaries
fits the token budget (`"User has N previous conversations about numerology."`). -/
def minimalContext (convs : List ConvSummary) : String :=
  "User has " ++ toString convs.length ++ " previous conversations about numerology."

/-- The `for reduced_count in range(len(conversations) - 1, 0, -1)` loop of
`format_conversation_history`: try `conversations[:k]` for `k` counting down
to 1, returning the first formatting that fits the budget, and the minimal
context when none does. -/
def tryReduce (tok : String → Nat) (max_tokens : Nat) (convs : List ConvSummary) :
    Nat → String
  | 0 => minimalContext convs
  | k + 1 =>
    let context := formatConversations (convs.take (k + 1))
    if tok context ≤ max_tokens then context else tryReduce tok max_tokens convs k

/-- Embedding of `format_conversation_history`, parameterised by the token
counter `tok` (the code's `count_tokens`). -/
def format_conversation_history (tok : String → Nat) (conversations : List ConvSummary)
    (max_tokens : Nat) : String :=
  if conversations.isEmpty then ""
  else if tok (formatConversations conversations) ≤ max_tokens then
    formatConversations conversations
  else tryReduce tok max_tokens conversations (conversations.length - 1)

/-! ## Room deletion (`daily_service.py`) -/

/-- Outcome of the HTTP DELETE round trip inside `delete_room`: either a
response with a status code, or a network failure (`httpx.RequestError`). -/
inductive HttpOutcome where
  | response (status : Nat)
  | requestError
deriving DecidableEq, Repr

/-- Success-or-raise body of `delete_room` before its `try`/`except` wrapper:
404 returns `False`, `response.raise_for_status()` raises `HTTPStatusError`
for any 4xx/5xx status, anything else returns `True`. -/
def deleteRoomCore (r : HttpOutcome) : Except PyExc Bool :=
  match r with
  | .requestError => .error .typeError
  | .response status =>
    if status = 404 then .ok false
    else if 400 ≤ status then .error .valueError
    else .ok true

/-- Embedding of `delete_room`: both `except` clauses catch the error, log it
and return `False`. -/
def delete_room (r : HttpOutcome) : Bool :=
  match deleteRoomCore r with
  | .ok b => b
  | .error _ => false

/-! ## Context cache (`conversation_service.py`) -/

/-- One `Conversation` row as read by `get_recent_conversations`: the query
already filtered on `ended_at is not None`, ordered by `started_at` descending
and applied the limit in SQL. -/
structure ConversationRow where
  started_at_iso : String
  main_topic : Option String
  key_insights : Option String
  numbers_discussed : Option String

/-- Outcome of the database query inside `get_recent_conversations`. -/
inductive DbFetch where
  | rows (l : List ConversationRow)
  | failure

/-- Embedding of `get_recent_conversations`: map each row to a summary dict
(`conv.main_topic or "General discussion"` etc.); any database exception is
caught and yields the empty list. -/
def get_recent_conversations (db : DbFetch) : List ConvSummary :=
  match db with
  | .failure => []
  | .rows l =>
    l.map fun conv =>
      { date := some conv.started_at_iso
        topic := some (conv.main_topic.getD "General discussion")
        insights := some (conv.key_insights.getD "")
        numbers := some (conv.numbers_discussed.getD "") }

/-- Outcome of `redis.get(cache_key)`: the cached value (`None` on a miss), or
an exception from the cache store. -/
inductive RedisGet where
  | got (cached : Option String)
  | failure

/-- Outcome of `redis.set(cache_key, context, ex=1800)`. -/
inductive RedisSet where
  | stored
  | failure
deriving DecidableEq, Repr

/-- The cache-miss path of `get_conversation_context_cached`: load recent
conversations, format them with a 500-token budget, store the result in Redis;
a failing store raises, and the enclosing `except` returns the empty string. -/
def contextFromDb (tok : String → Nat) (db : DbFetch) (st : RedisSet) : String :=
  let conversations := get_recent_conversations db
  let context := format_conversation_history tok conversations 500
  match st with
  | .stored => context
  | .failure => ""

/-- Embedding of `get_conversation_context_cached`: return the cached value if
it is truthy (`if cached:` treats `None` and `""` as a miss), otherwise
recompute; any exception from the cache store yields the empty string. -/
def get_conversation_context_cached (tok : String → Nat) (g : RedisGet)
    (db : DbFetch) (st : RedisSet) : String :=
  match g with
  | .failure => ""
  | .got none => contextFromDb tok db st
  | .got (some cached) => if cached = "" then contextFromDb tok db st else cached

/-! ## Claim-support definitions -/

/-- The two result shapes of the dispatch contract: a one-field success dict,
or a two-field error dict with `error` and `message` keys. -/
def isResultDict (d : PyDict) : Prop :=
  (∃ f v, d = [(f, v)] ∧ f ≠ "error") ∨
  (∃ kind msg, d = [("error", PyVal.str kind), ("message", PyVal.str msg)])

/-- The `error` field of a result dict, when present. -/
def errKind (d : PyDict) : Option PyVal :=
  d.lookup "error"

/-! ## Helper lemmas -/

theorem digitSum_le (n : Nat) : digitSum n ≤ n := by
  induction n using Nat.strong_induction_on with
  | _ n ih =>
    rw [digitSum.eq_def]
    split
    · omega
    · have := ih (n / 10) (by omega)
      omega

theorem digitSum_lt (n : Nat) (h : 10 ≤ n) : digitSum n < n := by
  have h0 : digitSum (n / 10) ≤ n / 10 := digitSum_le _
  rw [digitSum.eq_def]
  split
  · omega
  · omega

theorem digitSum_pos (n : Nat) : 0 < n → 0 < digitSum n := by
  induction n using Nat.strong_induction_on with
  | _ n ih =>
    intro h
    rw [digitSum.eq_def]
    split
    · omega
    · by_cases hm : n % 10 = 0
      · have hd : 0 < n / 10 := by omega
        have := ih (n / 10) (by omega) hd
        omega
      · omega

theorem reduce_pos_mem (n : Nat) :
    0 < n → reduce_to_single_digit n ∈ [1, 2, 3, 4, 5, 6, 7, 8, 9, 11, 22, 33] := by
  induction n using Nat.strong_induction_on with
  | _ n ih =>
    intro h
    rw [reduce_to_single_digit.eq_def]
    split
    · next hc =>
      exact ih (digitSum n) (digitSum_lt n (by omega)) (digitSum_pos n h)
    · next hc =>
      by_cases h9 : 9 < n
      · have hm : n ∈ MASTER_NUMBERS := by
          by_contra hnm
          exact hc ⟨h9, hnm⟩
        simp only [MASTER_NUMBERS, List.mem_cons, List.not_mem_nil, or_false] at hm
        rcases hm with rfl | rfl | rfl <;> decide
      · have h9' : n ≤ 9 := by omega
        interval_cases n <;> decide

theorem reduce_zero : reduce_to_single_digit 0 = 0 := by
  rw [reduce_to_single_digit.eq_def]
  norm_num

theorem reduce_fix_of_mem (m : Nat)
    (h : m ∈ [1, 2, 3, 4, 5, 6, 7, 8, 9, 11, 22, 33]) :
    reduce_to_single_digit m = m := by
  fin_cases h <;> simp [reduce_to_single_digit, MASTER_NUMBERS]

/-! ## Claim theorems -/

/-- Claim C3 (amended): for every integer n ≥ 1 the digit-reduction function
returns a value in {1..9, 11, 22, 33}.  The claim as stated (n ≥ 0) fails at
n = 0, where the function returns 0. -/
theorem c3_reduce_in_range (n : Nat) (h : 1 ≤ n) :
    reduce_to_single_digit n ∈ [1, 2, 3, 4, 5, 6, 7, 8, 9, 11, 22, 33] :=
  reduce_pos_mem n h

/-- Witness for C3: at n = 38 the hypothesis holds and the reduction lands in
the documented range. -/
theorem c3_reduce_in_range_witness :
    1 ≤ 38 ∧ reduce_to_single_digit 38 ∈ [1, 2, 3, 4, 5, 6, 7, 8, 9, 11, 22, 33] :=
  ⟨by decide, c3_reduce_in_range 38 (by decide)⟩

/-- Counterexample for C3 as stated: `_reduce_to_single_digit(0)` returns 0,
which is outside {1..9, 11, 22, 33}. -/
theorem c3_counterexample :
    reduce_to_single_digit 0 = 0 ∧
    (0 : Nat) ∉ [1, 2, 3, 4, 5, 6, 7, 8, 9, 11, 22, 33] :=
  ⟨reduce_zero, by decide⟩

/-- Claim C7: the digit-reduction function is idempotent on every natural
number. -/
theorem c7_reduce_idempotent (n : Nat) :
    reduce_to_single_digit (reduce_to_single_digit n) = reduce_to_single_digit n := by
  rcases Nat.eq_zero_or_pos n with rfl | h
  · rw [reduce_zero, reduce_zero]
  · exact reduce_fix_of_mem _ (reduce_pos_mem n h)

/-- Claim C6: the documented concrete values of the engine — life path of
1990-05-15 is 3, and the birthday number preserves the master days 11 and 22
while day 29 reduces to the master number 11. -/
theorem c6_life_path_and_birthday :
    calculate_life_path 1990 5 15 = 3 ∧
    calculate_birthday_number 11 = 11 ∧
    calculate_birthday_number 22 = 22 ∧
    calculate_birthday_number 29 = 11 := by
  have h5 : reduce_to_single_digit 5 = 5 := by
    simp [reduce_to_single_digit, MASTER_NUMBERS]
  have h15 : reduce_to_single_digit 15 = 6 := by
    simp [reduce_to_single_digit, digitSum, MASTER_NUMBERS]
  have h1990 : digitSum 1990 = 19 := by simp [digitSum]
  have h19 : reduce_to_single_digit 19 = 1 := by
    simp [reduce_to_single_digit, digitSum, MASTER_NUMBERS]
  have h12 : reduce_to_single_digit 12 = 3 := by
    simp [reduce_to_single_digit, digitSum, MASTER_NUMBERS]
  refine ⟨?_, ?_, ?_, ?_⟩
  · show reduce_to_single_digit
      (reduce_to_single_digit 5 + reduce_to_single_digit 15 +
        reduce_to_single_digit (digitSum 1990)) = 3
    rw [h5, h15, h1990, h19, show (5 + 6 + 1 : Nat) = 12 by norm_num, h12]
  · show reduce_to_single_digit 11 = 11
    simp [reduce_to_single_digit, MASTER_NUMBERS]
  · show reduce_to_single_digit 22 = 22
    simp [reduce_to_single_digit, MASTER_NUMBERS]
  · show reduce_to_single_digit 29 = 11
    simp [reduce_to_single_digit, digitSum, MASTER_NUMBERS]

theorem isResultDict_single (f : String) (v : PyVal) (h : f ≠ "error") :
    isResultDict [(f, v)] :=
  Or.inl ⟨f, v, rfl, h⟩

theorem isResultDict_error (kind msg : String) :
    isResultDict [("error", PyVal.str kind), ("message", PyVal.str msg)] :=
  Or.inr ⟨kind, msg, rfl⟩

theorem shape_life_path (v : PyVal) : isResultDict (handle_calculate_life_path v) := by
  unfold handle_calculate_life_path
  split
  · split
    · exact isResultDict_single "life_path_number" _ (by decide)
    · exact isResultDict_error "InvalidDate" _
  · exact isResultDict_error "CalculationError" _

theorem shape_expression (v : PyVal) : isResultDict (handle_calculate_expression v) := by
  unfold handle_calculate_expression
  split
  · exact isResultDict_error "InvalidName" _
  · split
    · split
      · exact isResultDict_error "InvalidName" _
      · exact isResultDict_single "expression_number" _ (by decide)
    · exact isResultDict_error "CalculationError" _

theorem shape_soul_urge (v : PyVal) : isResultDict (handle_calculate_soul_urge v) := by
  unfold handle_calculate_soul_urge
  split
  · exact isResultDict_error "InvalidName" _
  · split
    · split
      · exact isResultDict_error "InvalidName" _
      · exact isResultDict_single "soul_urge_number" _ (by decide)
    · exact isResultDict_error "CalculationError" _

theorem shape_interpretation (db : DbOutcome) (v1 v2 v3 : PyVal) :
    isResultDict (handle_get_interpretation db v1 v2 v3) := by
  unfold handle_get_interpretation
  split
  · exact isResultDict_error "DatabaseError" _
  · exact isResultDict_single "interpretations" _ (by decide)

theorem shape_core (db : DbOutcome) (name : String) (args : PyArgs) (r : PyDict)
    (h : handleNumerologyFunctionCore db name args = .ok r) : isResultDict r := by
  unfold handleNumerologyFunctionCore at h
  split_ifs at h
  · cases hgi : getItem args "birth_date" with
    | ok v =>
      rw [hgi] at h
      simp only [Except.map, Except.ok.injEq] at h
      rw [← h]
      exact shape_life_path v
    | error e => rw [hgi] at h; simp [Except.map] at h
  · cases hgi : getItem args "full_name" with
    | ok v =>
      rw [hgi] at h
      simp only [Except.map, Except.ok.injEq] at h
      rw [← h]
      exact shape_expression v
    | error e => rw [hgi] at h; simp [Except.map] at h
  · cases hgi : getItem args "full_name" with
    | ok v =>
      rw [hgi] at h
      simp only [Except.map, Except.ok.injEq] at h
      rw [← h]
      exact shape_soul_urge v
    | error e => rw [hgi] at h; simp [Except.map] at h
  · cases h1 : getItem args "number_type" with
    | ok v1 =>
      rw [h1] at h
      cases h2 : getItem args "number_value" with
      | ok v2 =>
        rw [h2] at h
        cases h3 : getOpt args "category" with
        | ok v3 =>
          rw [h3] at h
          simp only [Except.ok.injEq] at h
          rw [← h]
          exact shape_interpretation db v1 v2 v3
        | error e => rw [h3] at h; simp at h
      | error e => rw [h2] at h; simp at h
    | error e => rw [h1] at h; simp at h
  · simp only [Except.ok.injEq] at h
    rw [← h]
    exact isResultDict_error _ _

/-- Claim C1: for every database outcome, tool name and argument value, the
dispatch entry point returns either a one-field success dict or an
`{error, message}` error dict; totality of the embedding reflects that the
`try`/`except` wrapper never lets an exception escape. -/
theorem c1_dispatch_total_shape (db : DbOutcome) (name : String) (args : PyArgs) :
    (∃ f v, handle_numerology_function db name args = [(f, v)] ∧ f ≠ "error") ∨
    (∃ kind msg, handle_numerology_function db name args =
      [("error", PyVal.str kind), ("message", PyVal.str msg)]) := by
  show isResultDict (handle_numerology_function db name args)
  unfold handle_numerology_function runHandled
  cases hc : handleNumerologyFunctionCore db name args with
  | ok r => exact shape_core db name args r hc
  | error e => cases e <;> exact isResultDict_error _ _

/-- Claim C2 (amended): for every tool name outside the four registered tools,
dispatch returns an error dict whose error kind is `"UnknownFunction"` (the
spec calls this kind `"UnknownTool"`, but the code and its tests use
`"UnknownFunction"`), and does not raise. -/
theorem c2_unknown_tool (db : DbOutcome) (args : PyArgs) (name : String)
    (h : name ∉ ["calculate_life_path", "calculate_expression_number",
      "calculate_soul_urge_number", "get_numerology_interpretation"]) :
    handle_numerology_function db name args =
      [("error", PyVal.str "UnknownFunction"),
       ("message", PyVal.str ("Function " ++ name ++ " not found"))] := by
  obtain ⟨h1, h2, h3, h4⟩ :
      name ≠ "calculate_life_path" ∧ name ≠ "calculate_expression_number" ∧
      name ≠ "calculate_soul_urge_number" ∧ name ≠ "get_numerology_interpretation" := by
    simpa [not_or] using h
  unfold handle_numerology_function handleNumerologyFunctionCore
  rw [if_neg h1, if_neg h2, if_neg h3, if_neg h4]
  rfl

/-- Witness for C2 (amended), at the concrete unregistered name
`"unknown_function"`. -/
theorem c2_unknown_tool_witness :
    "unknown_function" ∉ ["calculate_life_path", "calculate_expression_number",
      "calculate_soul_urge_number", "get_numerology_interpretation"] ∧
    handle_numerology_function (.rows []) "unknown_function" (.dict []) =
      [("error", PyVal.str "UnknownFunction"),
       ("message", PyVal.str "Function unknown_function not found")] :=
  ⟨by decide, c2_unknown_tool (.rows []) (.dict []) "unknown_function" (by decide)⟩

/-- Counterexample for C2 as stated: dispatching the unregistered name
`"unknown_function"` yields the error kind `"UnknownFunction"`, not the
`"UnknownTool"` kind the claim requires. -/
theorem c2_counterexample :
    errKind (handle_numerology_function (.rows []) "unknown_function" (.dict [])) =
      some (PyVal.str "UnknownFunction") ∧
    some (PyVal.str "UnknownFunction") ≠ some (PyVal.str "UnknownTool") := by
  refine ⟨rfl, ?_⟩
  intro hcontra
  injection hcontra with hv
  injection hv with hs
  exact absurd hs (by decide)

/-- Claim C9: when the arguments value is not a mapping, extracting a required
argument raises a `TypeError` (not `KeyError`), and the dispatcher's blanket
handler returns the `"HandlerError"` kind — which lies outside the spec's
defined error-kind set — while still returning a dict and not raising. -/
theorem c9_handler_error_kind :
    handle_numerology_function (.rows []) "calculate_life_path" .nonMapping =
      [("error", PyVal.str "HandlerError"),
       ("message", PyVal.str "Unable to process function call. Please try again.")] ∧
    "HandlerError" ∉ ["InvalidDate", "InvalidName", "CalculationError",
      "DatabaseError", "UnknownTool", "MissingArgument"] :=
  ⟨rfl, by decide⟩

/-- Claim C5: `delete_room` never raises — a 404 ("room not found") returns
`false`, every provider HTTP error status (4xx/5xx, raised by
`raise_for_status` and caught) returns `false`, and a network failure returns
`false`. -/
theorem c5_delete_room_never_raises (status : Nat) (h : 400 ≤ status) :
    delete_room (.response 404) = false ∧
    delete_room (.response status) = false ∧
    delete_room .requestError = false := by
  refine ⟨rfl, ?_, rfl⟩
  unfold delete_room deleteRoomCore
  by_cases h404 : status = 404 <;> simp [h404, h]

/-- Witness for C5 at the provider error status 500. -/
theorem c5_delete_room_never_raises_witness :
    400 ≤ 500 ∧
    (delete_room (.response 404) = false ∧
     delete_room (.response 500) = false ∧
     delete_room .requestError = false) :=
  ⟨by decide, c5_delete_room_never_raises 500 (by decide)⟩

/-- Claim C8: the cached-context lookup never raises; it returns the empty
string on a cache-store failure, on a first call (cache miss) for a user with
zero completed conversations, and on a database failure — for every token
counter, store outcome and (in the failure case) database outcome. -/
theorem c8_context_cached_degrades (tok : String → Nat) (db : DbFetch) (st : RedisSet) :
    get_conversation_context_cached tok .failure db st = "" ∧
    get_conversation_context_cached tok (.got none) (.rows []) st = "" ∧
    get_conversation_context_cached tok (.got (some "")) (.rows []) st = "" ∧
    get_conversation_context_cached tok (.got none) .failure st = "" := by
  refine ⟨rfl, ?_, ?_, ?_⟩ <;> cases st <;> rfl

theorem tryReduce_budget_or_minimal (tok : String → Nat) (max_tokens : Nat)
    (convs : List ConvSummary) (k : Nat) :
    tok (tryReduce tok max_tokens convs k) ≤ max_tokens ∨
    tryReduce tok max_tokens convs k = minimalContext convs := by
  induction k with
  | zero => exact Or.inr rfl
  | succ k ih =>
    rw [tryReduce]
    split
    · next h => exact Or.inl h
    · exact ih

/-- Claim C4 (amended): for every token counter, summary list and budget, the
string returned by `format_conversation_history` either has token count within
the budget, or is the empty string returned for an empty list, or is the
degraded one-line fallback — which is never re-measured against the budget and
can therefore exceed it. -/
theorem c4_token_budget (tok : String → Nat) (conversations : List ConvSummary)
    (max_tokens : Nat) :
    tok (format_conversation_history tok conversations max_tokens) ≤ max_tokens ∨
    format_conversation_history tok conversations max_tokens = "" ∨
    format_conversation_history tok conversations max_tokens =
      minimalContext conversations := by
  unfold format_conversation_history
  split
  · exact Or.inr (Or.inl rfl)
  · split
    · next h => exact Or.inl h
    · rcases tryReduce_budget_or_minimal tok max_tokens conversations
        (conversations.length - 1) with h | h
      · exact Or.inl h
      · exact Or.inr (Or.inr h)

set_option maxRecDepth 8192 in
/-- Counterexample for C4 as stated: with the code's own estimating token
counter, one undated summary and a budget of 0 tokens, the function returns
the one-line fallback, whose token count (12) exceeds the budget. -/
theorem c4_counterexample :
    format_conversation_history count_tokens_est [⟨none, none, none, none⟩] 0 =
      "User has 1 previous conversations about numerology." ∧
    ¬ (count_tokens_est "User has 1 previous conversations about numerology." ≤ 0) := by
  refine ⟨rfl, by decide⟩

theorem reduce_zero_of_no_vowels (s : String)
    (h : ∀ c ∈ s.data, Char.toUpper c ∉ VOWELS) :
    calculate_soul_urge_number s = 0 := by
  have hempty : (cleanName s).filter (fun c => c ∈ VOWELS) = [] := by
    rw [List.filter_eq_nil_iff]
    intro a ha
    rcases List.mem_map.mp ha with ⟨c, hc, rfl⟩
    have hcs : c ∈ s.data := (List.mem_filter.mp hc).1
    simpa using h c hcs
  unfold calculate_soul_urge_number
  rw [hempty]
  simpa using reduce_zero

/-- Claim C10 (amended): for every name that is non-empty after stripping
whitespace and whose letters contain none of the vowels A, E, I, O, U,
`calculate_soul_urge_number` returns 0 — outside the documented range — and
the dispatch handler accepts the name and returns the success dict
`{"soul_urge_number": 0}`.  (The claim as stated, for every non-empty name,
fails on whitespace-only names, which the handler rejects as `InvalidName`.) -/
theorem c10_soul_urge_zero (s : String) (h1 : pyStrip s ≠ "")
    (h2 : ∀ c ∈ s.data, Char.toUpper c ∉ VOWELS) :
    calculate_soul_urge_number s = 0 ∧
    (0 : Nat) ∉ [1, 2, 3, 4, 5, 6, 7, 8, 9, 11, 22, 33] ∧
    handle_calculate_soul_urge (PyVal.str s) = [("soul_urge_number", PyVal.int 0)] := by
  have hz := reduce_zero_of_no_vowels s h2
  have hs : s ≠ "" := by
    intro hcontra
    apply h1
    rw [hcontra]
    rfl
  refine ⟨hz, by decide, ?_⟩
  unfold handle_calculate_soul_urge
  simp [PyVal.isTruthy, hs, h1, hz]

/-- Witness for C10 (amended) at the vowel-free name `"Rhythm"`. -/
theorem c10_soul_urge_zero_witness :
    pyStrip "Rhythm" ≠ "" ∧
    calculate_soul_urge_number "Rhythm" = 0 ∧
    handle_calculate_soul_urge (PyVal.str "Rhythm") = [("soul_urge_number", PyVal.int 0)] :=
  ⟨by decide, (c10_soul_urge_zero "Rhythm" (by decide) (by decide)).1,
    (c10_soul_urge_zero "Rhythm" (by decide) (by decide)).2.2⟩

/-- Counterexample for C10 as stated: the whitespace-only name `" "` is a
non-empty string whose letters (there are none) contain no vowels, yet the
handler rejects it with `InvalidName` instead of returning
`{"soul_urge_number": 0}`. -/
theorem c10_counterexample :
    (" " ≠ "") ∧
    (" ".data.all fun c => !(VOWELS.contains (Char.toUpper c))) = true ∧
    handle_calculate_soul_urge (PyVal.str " ") = invalidNameDict ∧
    invalidNameDict ≠ [("soul_urge_number", PyVal.int 0)] := by
  refine ⟨by decide, by decide, rfl, ?_⟩
  simp [invalidNameDict]
